import Mathlib

/-!
Verification development for the torrent-streaming proxy of the movie-mag
repository (`src/torrent-streaming/torrent-proxy.js`, the live class
`TorrentStreamingProxy` at the bottom of that file, lines 365-619; the two
earlier versions of the class in the same file are commented out and dead).

The embedding is shallow: the express route handlers and the periodic
cleanup are modelled as pure functions over an explicit `ProxyState`;
JavaScript `Map` objects become association lists, engine handles become
natural-number identifiers, millisecond timestamps become integers, and
strings are manipulated through their character lists so that every
definition is kernel-computable.
-/

namespace MovieMag

/-! ## String primitives

JavaScript string operations used by the proxy, modelled over `List Char`.
-/

/-- Leading decimal digits of a character list. -/
def takeDigits (s : List Char) : List Char :=
  s.takeWhile (fun c => decide ('0' ≤ c) && decide (c ≤ '9'))

/-- Numeric value of a list of decimal digits. -/
def digitsToNat (ds : List Char) : Nat :=
  ds.foldl (fun acc c => acc * 10 + (c.toNat - 48)) 0

/-- Model of `parseInt(s, 10)` as used by the proxy on range parts and the file
index: parses the leading run of decimal digits, `none` when there is no
leading digit (JavaScript `NaN`).  The proxy never feeds it a signed
string (range parts come from splitting on the dash). -/
def jsParseInt (s : List Char) : Option Nat :=
  match takeDigits s with
  | [] => none
  | ds => some (digitsToNat ds)

/-- Model of `s.replace(pat, '')` with a plain (non-global) pattern: removes the
first occurrence of `pat`, as JavaScript `String.prototype.replace` with a
non-global regex does. -/
def replaceOnce (pat : List Char) : List Char → List Char
  | [] => []
  | c :: rest =>
    if pat.isPrefixOf (c :: rest) then (c :: rest).drop pat.length
    else c :: replaceOnce pat rest

/-- Model of `s.split(sep)` for a single-character separator, JavaScript
semantics: `"2000-".split('-')` is `["2000", ""]`. -/
def splitOnChar (sep : Char) : List Char → List (List Char)
  | [] => [[]]
  | c :: rest =>
    if c = sep then [] :: splitOnChar sep rest
    else
      match splitOnChar sep rest with
      | [] => [[c]]
      | g :: gs => (c :: g) :: gs

/-! ## Data model -/

/-- A file as reported by the torrent-stream engine: `file.name` and
`file.length` are all the proxy reads from it. -/
structure TFile where
  name : String
  length : Nat
deriving DecidableEq, Repr

/-- One element of the `files` array of the `/api/torrent/info` JSON
response:
`{ name: file.name, length: file.length, index: engine.files.indexOf(file) }`. -/
structure InfoFile where
  name : String
  length : Nat
  index : Nat
deriving DecidableEq, Repr

/-- The extension alternatives of the filter regex
`/\.(mp4|mkv|webm|avi|mov|m4v)$/i` in the info route. -/
def videoExts : List String := ["mp4", "mkv", "webm", "avi", "mov", "m4v"]

/-- Predicate `isVideoFile name` models the test of the anchored case-insensitive
regex `/\.(mp4|mkv|webm|avi|mov|m4v)$/i` against `file.name`: the name,
lowercased, must end in a dot followed by one of the listed extensions. -/
def isVideoFile (name : String) : Bool :=
  videoExts.any (fun ext =>
    List.isSuffixOf ("." ++ ext).data (name.data.map Char.toLower))

/-- The `files` array built by the info route (torrent-proxy.js lines
459-471): `engine.files.filter(videoRegex)` mapped to name, length and
`engine.files.indexOf(file)`.  JavaScript `indexOf` compares object
references and the engine's file objects are pairwise distinct, so each
filtered file's `indexOf` is its own position in the unfiltered array;
the model therefore pairs every file with its position via `List.enum`
before filtering. -/
def infoFiles (files : List TFile) : List InfoFile :=
  ((files.enum).filter (fun p => isVideoFile p.2.name)).map
    (fun p => { name := p.2.name, length := p.2.length, index := p.1 })

/-- The stream route's file selection `const file = engine.files[fileIndex]`
(torrent-proxy.js line 504); an out-of-bounds index yields `undefined`,
modelled as `none` (the route then answers 404 and destroys the engine). -/
def streamSelect (files : List TFile) (i : Nat) : Option TFile :=
  files.get? i

/-! ## HTTP range framing (stream route, torrent-proxy.js lines 513-557) -/

/-- The head of the response the stream route writes for a request with a
`Range` header: status code, the three `Content-Range` fields
(`bytes crStart-crEnd/crTotal`) and `Content-Length`. -/
structure RangeResponse where
  status : Nat
  crStart : Int
  crEnd : Int
  crTotal : Int
  contentLength : Int
deriving DecidableEq, Repr

/-- Model of `const end = parts[1] ? parseInt(parts[1], 10) : fileSize - 1`: the
end bound of the range, defaulting to `fileSize - 1` when absent. -/
def resolveEnd (fileSize : Int) (endOpt : Option Int) : Int :=
  endOpt.getD (fileSize - 1)

/-- The range branch of the stream route (torrent-proxy.js lines 528-544):
unconditionally `res.writeHead(206, ...)` with
`Content-Range: bytes start-end/fileSize` and
`Content-Length = (end - start) + 1`.  The code performs no validation of
the bounds whatsoever. -/
def rangeResponse (fileSize start : Int) (endOpt : Option Int) : RangeResponse :=
  let e := resolveEnd fileSize endOpt
  { status := 206, crStart := start, crEnd := e, crTotal := fileSize,
    contentLength := e - start + 1 }

/-- Parsing and answering of a `Range` header (given by its character
list) in the stream route: `range.replace(/bytes=/, '').split('-')`,
`parseInt` of the first part, and the second part used only when truthy
(non-empty); the split-parts expression is written out twice in place of
the source's local `parts` binding.  The result is `none` when a present
part has no leading digit (JavaScript would carry a `NaN` into the header
there; no claim concerns that case). -/
def streamRangeBranch (fileSize : Int) (range : List Char) : Option RangeResponse :=
  match jsParseInt ((splitOnChar '-' (replaceOnce "bytes=".data range)).getD 0 []) with
  | none => none
  | some start =>
    match (splitOnChar '-' (replaceOnce "bytes=".data range)).getD 1 [] with
    | [] => some (rangeResponse fileSize (start : Int) none)
    | t =>
      match jsParseInt t with
      | none => none
      | some e => some (rangeResponse fileSize (start : Int) (some (e : Int)))

/-! ## Engine registry state (the `activeEngines` map and engine lifecycle)

The proxy's only mutable state is `this.activeEngines`, a JavaScript `Map`
from `streamId` (the string `` `${magnetHash}-${fileIndex}` ``) to
`{ engine, lastAccess }`.  Engine handles are modelled by the order in
which `torrentStream(...)` calls create them: `ProxyState.nextId` numbers
them, `opened` logs every creation together with its magnet string, and
`destroyed` logs every `engine.destroy()` call. -/

/-- A value of the `activeEngines` map:
`{ engine, lastAccess: Date.now() }` (torrent-proxy.js line 570). -/
structure EngineEntry where
  engineId : Nat
  lastAccess : Int
deriving DecidableEq, Repr

/-- The proxy's mutable state. -/
structure ProxyState where
  nextId : Nat
  opened : List (Nat × String)
  destroyed : List Nat
  activeEngines : List (String × EngineEntry)
deriving DecidableEq, Repr

/-- State of a freshly constructed `TorrentStreamingProxy`. -/
def initState : ProxyState :=
  { nextId := 0, opened := [], destroyed := [], activeEngines := [] }

/-- Model of `Map.prototype.set`: update the value in place when the key is
present, append otherwise (keys of a JavaScript `Map` are unique). -/
def mapSet (k : String) (v : EngineEntry) :
    List (String × EngineEntry) → List (String × EngineEntry)
  | [] => [(k, v)]
  | (k1, v1) :: rest =>
    if k1 = k then (k, v) :: rest else (k1, v1) :: mapSet k v rest

/-- Model of `Map.prototype.delete`: remove the binding of `k`.  A `Map` holds at
most one binding per key, so removal is modelled by filtering. -/
def mapDelete (k : String) (m : List (String × EngineEntry)) :
    List (String × EngineEntry) :=
  m.filter (fun p => !(p.1 = k : Bool))

/-- Model of `Map.prototype.get` and `has`: the value bound to `k`, if any. -/
def mapFind (m : List (String × EngineEntry)) (k : String) : Option EngineEntry :=
  (m.find? (fun p => (p.1 = k : Bool))).map (fun p => p.2)

/-- The map key `` `${magnetHash}-${fileIndex}` `` of the stream route
(torrent-proxy.js line 569). -/
def streamId (magnetHash : String) (fileIndex : Nat) : String :=
  magnetHash ++ "-" ++ toString fileIndex

/-- Entry of the stream route handler (torrent-proxy.js lines 490-501):
before anything else, and without consulting `activeEngines`, the handler
calls `torrentStream(magnetHash, ...)`, opening a brand-new engine for the
requested magnet.  Returns the new engine's id with the updated state;
`fileIndex` plays no role at this point. -/
def streamRequestStart (magnetHash : String) (fileIndex : Nat) (s : ProxyState) :
    Nat × ProxyState :=
  (s.nextId,
    { s with nextId := s.nextId + 1, opened := s.opened ++ [(s.nextId, magnetHash)] })

/-- The stream route's `'ready'` handler (torrent-proxy.js lines 503-578)
as far as it touches the state: when `engine.files[fileIndex]` exists the
engine is stored under its `streamId` with `lastAccess: Date.now()`
(line 570); when it does not, the route answers 404 and calls
`engine.destroy()` (lines 505-509). -/
def streamEngineReady (magnetHash : String) (fileIndex : Nat) (engineId : Nat)
    (fileExists : Bool) (now : Int) (s : ProxyState) : ProxyState :=
  if fileExists then
    { s with activeEngines :=
        mapSet (streamId magnetHash fileIndex) ⟨engineId, now⟩ s.activeEngines }
  else
    { s with destroyed := s.destroyed ++ [engineId] }

/-- The stream route's `req.on('close', ...)` handler (torrent-proxy.js
lines 573-577): delete the `streamId` binding from `activeEngines` and
`engine.destroy()`. -/
def clientDisconnect (magnetHash : String) (fileIndex : Nat) (engineId : Nat)
    (s : ProxyState) : ProxyState :=
  { s with activeEngines := mapDelete (streamId magnetHash fileIndex) s.activeEngines,
           destroyed := s.destroyed ++ [engineId] }

/-- Entry of the info route handler (torrent-proxy.js lines 438-447): it
too unconditionally calls `torrentStream(magnetHash, ...)`. -/
def infoRequestStart (magnetHash : String) (s : ProxyState) : Nat × ProxyState :=
  (s.nextId,
    { s with nextId := s.nextId + 1, opened := s.opened ++ [(s.nextId, magnetHash)] })

/-- The `setTimeout(() => { engine.destroy(); }, 10000)` scheduled by the
info route's own `'ready'` handler right after the JSON response
(torrent-proxy.js lines 474-477): ten seconds after answering, the info
request destroys the engine it opened.  The info route never touches
`activeEngines`. -/
def infoDelayedDestroy (engineId : Nat) (s : ProxyState) : ProxyState :=
  { s with destroyed := s.destroyed ++ [engineId] }

/-- The `engine.on('error', ...)` handlers of both the info route
(torrent-proxy.js lines 480-486) and the stream route (lines 580-585):
when headers have not been sent, respond `500 { error: err.message }`.
Neither handler calls `engine.destroy()`, deletes anything from
`activeEngines`, or touches any other state — the state is returned
unchanged together with the 500 status. -/
def engineOpenError (s : ProxyState) : ProxyState × Nat :=
  (s, 500)

/-- The `maxAge` of the cleanup sweep: `10 * 60 * 1000` milliseconds
(torrent-proxy.js line 593). -/
def maxAgeMs : Int := 10 * 60 * 1000

/-- The body of the `setInterval` in `setupCleanup` (torrent-proxy.js
lines 589-603), run every five minutes: for every `activeEngines` entry
with `now - lastAccess > maxAge`, call `engine.destroy()` and delete the
entry; entries within the age bound are untouched.  No other quantity —
in particular no watch fraction, which the proxy does not track — is
consulted. -/
def cleanupSweep (now : Int) (s : ProxyState) : ProxyState :=
  { s with
    activeEngines :=
      s.activeEngines.filter (fun p => !(decide (now - p.2.lastAccess > maxAgeMs))),
    destroyed := s.destroyed ++
      ((s.activeEngines.filter (fun p => decide (now - p.2.lastAccess > maxAgeMs))).map
        (fun p => p.2.engineId)) }

/-- Number of engines opened so far for a given magnet string. -/
def countOpens (magnetHash : String) (s : ProxyState) : Nat :=
  (s.opened.filter (fun p => (p.2 = magnetHash : Bool))).length

/-! ## Route dispatch

Express matches middleware and routes in registration order
(torrent-proxy.js `setupMiddleware` lines 385-400, `setupRoutes` lines
402-587): the CORS middleware answers every `OPTIONS` request with 200
first; then `GET /` and `GET /api/torrent/health` are registered; only
after them, when the `torrent-stream` module failed to load, a catch-all
`app.use('/api/torrent/*')` answers 503 and no further route exists;
otherwise the info and stream routes follow.  Anything unmatched falls
through to the express default 404 handler. -/

/-- The handler an inbound request is dispatched to. -/
inductive Handler where
  | corsPreflight
  | root
  | health
  | infoRoute
  | streamRoute
  | unavailable503
  | notFound404
deriving DecidableEq, Repr

/-- Dispatch of method and path segments to a handler, in the proxy's
registration order.  `avail` is the truth of `!!torrentStream`
(torrent-proxy.js lines 369-374 and 426-435). -/
def route (avail : Bool) (method : String) (segs : List String) : Handler :=
  if method = "OPTIONS" then Handler.corsPreflight
  else if method = "GET" ∧ segs = [] then Handler.root
  else if method = "GET" ∧ segs = ["api", "torrent", "health"] then Handler.health
  else if !avail then
    match segs with
    | "api" :: "torrent" :: _ :: _ => Handler.unavailable503
    | _ => Handler.notFound404
  else
    match method, segs with
    | "GET", ["api", "torrent", "info", _] => Handler.infoRoute
    | "GET", ["api", "torrent", "stream", _, _] => Handler.streamRoute
    | _, _ => Handler.notFound404

/-- Status code a handler answers with, when it is fixed by the handler
alone: the CORS preflight, root and health handlers always answer 200,
the unavailability catch-all 503, and the express default 404; the info
and stream handlers' statuses depend on the engine and are modelled by
the state functions above. -/
def handlerStatus : Handler → Option Nat
  | Handler.corsPreflight => some 200
  | Handler.root => some 200
  | Handler.health => some 200
  | Handler.infoRoute => none
  | Handler.streamRoute => none
  | Handler.unavailable503 => some 503
  | Handler.notFound404 => some 404

/-! ## Helper lemmas -/

theorem isPrefixOf_append_self (l rest : List Char) :
    l.isPrefixOf (l ++ rest) = true := by
  induction l with
  | nil => simp
  | cons c t ih =>
    show (c == c && t.isPrefixOf (t ++ rest)) = true
    simp [ih]

theorem replaceOnce_of_append (pat rest : List Char) (h : pat ≠ []) :
    replaceOnce pat (pat ++ rest) = rest := by
  cases pat with
  | nil => exact absurd rfl h
  | cons p ps =>
    show replaceOnce (p :: ps) (p :: (ps ++ rest)) = rest
    unfold replaceOnce
    have h2 : (p :: ps).isPrefixOf (p :: (ps ++ rest)) = true :=
      isPrefixOf_append_self (p :: ps) rest
    rw [if_pos h2]
    exact List.drop_left (p :: ps) rest

theorem splitOnChar_of_not_mem (sep : Char) (l : List Char) (h : sep ∉ l) :
    splitOnChar sep l = [l] := by
  induction l with
  | nil => rfl
  | cons c rest ih =>
    have hc : ¬(c = sep) := fun hcs => h (hcs ▸ List.mem_cons_self c rest)
    have hrest : sep ∉ rest := fun hm => h (List.mem_cons_of_mem c hm)
    unfold splitOnChar
    rw [if_neg hc, ih hrest]

theorem splitOnChar_append (sep : Char) (xs ys : List Char) (h : sep ∉ xs) :
    splitOnChar sep (xs ++ sep :: ys) = xs :: splitOnChar sep ys := by
  induction xs with
  | nil =>
    show splitOnChar sep (sep :: ys) = [] :: splitOnChar sep ys
    simp only [splitOnChar]
    rw [if_pos trivial]
  | cons c xs ih =>
    have hc : ¬(c = sep) := fun hcs => h (hcs ▸ List.mem_cons_self c xs)
    have hxs : sep ∉ xs := fun hm => h (List.mem_cons_of_mem c hm)
    show splitOnChar sep (c :: (xs ++ sep :: ys)) = (c :: xs) :: splitOnChar sep ys
    simp only [splitOnChar]
    rw [if_neg hc, ih hxs]

theorem jsParseInt_of_digits (ds : List Char) (hne : ds ≠ [])
    (hd : ∀ c ∈ ds, (decide ('0' ≤ c) && decide (c ≤ '9')) = true) :
    jsParseInt ds = some (digitsToNat ds) := by
  unfold jsParseInt
  rw [show takeDigits ds = ds from List.takeWhile_eq_self_iff.mpr hd]
  cases ds with
  | nil => exact absurd rfl hne
  | cons c t => rfl

theorem dash_not_mem_of_digits (ds : List Char)
    (hd : ∀ c ∈ ds, (decide ('0' ≤ c) && decide (c ≤ '9')) = true) :
    '-' ∉ ds := by
  intro hm
  have h1 := hd '-' hm
  rw [show (decide ('0' ≤ '-') && decide ('-' ≤ '9')) = false from by decide] at h1
  exact Bool.false_ne_true h1

theorem mapFind_mapDelete (m : List (String × EngineEntry)) (k : String) :
    mapFind (mapDelete k m) k = none := by
  unfold mapFind mapDelete
  rw [List.find?_eq_none.mpr]
  · rfl
  · intro x hx
    have h2 := (List.mem_filter.mp hx).2
    simp only [decide_eq_true_eq, Bool.not_eq_true'] at h2 ⊢
    simpa using h2

/-! ## Claims -/

/-- Claim C10 (confirmed): the `files` array of a successful info response
lists exactly the torrent files whose names match the video-extension list
(case-insensitively), and each listed entry's `index` is the file's
position in the engine's complete unfiltered file list — the same index
space `engine.files[fileIndex]` of the stream route uses, so an index
returned by info always selects the same file when streamed. -/
theorem info_files_index_consistent_with_stream (files : List TFile) :
    (∀ e, e ∈ infoFiles files →
      ∃ f, streamSelect files e.index = some f ∧
        f.name = e.name ∧ f.length = e.length ∧ isVideoFile f.name = true)
    ∧ (∀ (i : Nat) (f : TFile), streamSelect files i = some f →
        isVideoFile f.name = true →
        ({ name := f.name, length := f.length, index := i } : InfoFile) ∈ infoFiles files) := by
  constructor
  · intro e he
    unfold infoFiles at he
    rcases List.mem_map.mp he with ⟨p, hpmem, hpe⟩
    rcases List.mem_filter.mp hpmem with ⟨hpenum, hpvid⟩
    have hget : files[p.1]? = some p.2 := by
      have hp : (p.1, p.2) ∈ files.enum := by simpa using hpenum
      exact Option.some_inj.mp (by simpa using List.mk_mem_enum_iff_getElem?.mp hp)
    refine ⟨p.2, ?_, ?_, ?_, ?_⟩
    · show streamSelect files e.index = some p.2
      rw [← hpe]
      simpa [streamSelect, List.get?_eq_getElem?] using hget
    · rw [← hpe]
    · rw [← hpe]
    · exact hpvid
  · intro i f hsel hvid
    unfold infoFiles
    refine List.mem_map.mpr ⟨(i, f), List.mem_filter.mpr ⟨?_, ?_⟩, rfl⟩
    · exact List.mk_mem_enum_iff_getElem?.mpr
        (by simpa [streamSelect, List.get?_eq_getElem?] using hsel)
    · simpa using hvid

/-- Witness for C10 at a concrete torrent: three files of which two are
videos; the entry for the third file carries index 2, and that index
selects the same file through the stream route's lookup. -/
theorem info_files_index_consistent_with_stream_witness :
    ∃ f, streamSelect [⟨"a.mkv", 900⟩, ⟨"b.txt", 5⟩, ⟨"c.MP4", 10⟩] 2 = some f ∧
      f.name = "c.MP4" ∧ f.length = 10 ∧ isVideoFile f.name = true :=
  (info_files_index_consistent_with_stream
      [⟨"a.mkv", 900⟩, ⟨"b.txt", 5⟩, ⟨"c.MP4", 10⟩]).1
    ⟨"c.MP4", 10, 2⟩ (by decide)

/-- Claim C4 (confirmed): a stream request with `Range: bytes=start-end`
(digit strings, `0 ≤ start ≤ end < total`) is answered 206 with
`Content-Range: bytes start-end/total` and `Content-Length = end-start+1`,
and with the end bound omitted (`bytes=start-`) the end defaults to
`total-1`.  Stated over the decimal digit strings the header carries, so
the parsing of the header is covered as well. -/
theorem range_request_partial_content (total : Int) (sds eds : List Char)
    (h1 : sds ≠ [])
    (h2 : ∀ c ∈ sds, (decide ('0' ≤ c) && decide (c ≤ '9')) = true)
    (h3 : eds ≠ [])
    (h4 : ∀ c ∈ eds, (decide ('0' ≤ c) && decide (c ≤ '9')) = true)
    (h5 : (digitsToNat sds : Int) ≤ (digitsToNat eds : Int))
    (h6 : (digitsToNat eds : Int) < total) :
    streamRangeBranch total ("bytes=".data ++ (sds ++ '-' :: eds)) =
      some { status := 206, crStart := (digitsToNat sds : Int),
             crEnd := (digitsToNat eds : Int), crTotal := total,
             contentLength := (digitsToNat eds : Int) - (digitsToNat sds : Int) + 1 }
    ∧ streamRangeBranch total ("bytes=".data ++ (sds ++ ['-'])) =
      some { status := 206, crStart := (digitsToNat sds : Int),
             crEnd := total - 1, crTotal := total,
             contentLength := (total - 1) - (digitsToNat sds : Int) + 1 } := by
  have hbne : ("bytes=".data : List Char) ≠ [] := by decide
  have hs : '-' ∉ sds := dash_not_mem_of_digits sds h2
  have he : '-' ∉ eds := dash_not_mem_of_digits eds h4
  constructor
  · cases eds with
    | nil => exact absurd rfl h3
    | cons c t =>
      unfold streamRangeBranch
      rw [replaceOnce_of_append _ _ hbne, splitOnChar_append '-' sds (c :: t) hs,
        splitOnChar_of_not_mem '-' (c :: t) he]
      rw [show (sds :: [c :: t]).getD 0 [] = sds from rfl,
        show (sds :: [c :: t]).getD 1 [] = c :: t from rfl]
      rw [jsParseInt_of_digits sds h1 h2]
      simp [jsParseInt_of_digits (c :: t) (List.cons_ne_nil c t) h4, rangeResponse, resolveEnd]
  · unfold streamRangeBranch
    rw [show sds ++ ['-'] = sds ++ '-' :: ([] : List Char) from rfl]
    rw [replaceOnce_of_append _ _ hbne, splitOnChar_append '-' sds [] hs]
    rw [show splitOnChar '-' ([] : List Char) = [[]] from rfl]
    rw [show (sds :: [([] : List Char)]).getD 0 [] = sds from rfl,
      show (sds :: [([] : List Char)]).getD 1 [] = [] from rfl]
    rw [jsParseInt_of_digits sds h1 h2]
    simp [rangeResponse, resolveEnd]

/-- Witness for C4: the claim's own concrete instance, `bytes=100-199`
against a 1000-byte file, yields 206 with
`Content-Range: bytes 100-199/1000` and `Content-Length: 100`. -/
theorem range_request_partial_content_witness :
    streamRangeBranch 1000 "bytes=100-199".data =
      some { status := 206, crStart := 100, crEnd := 199, crTotal := 1000,
             contentLength := 100 } :=
  (range_request_partial_content 1000 ['1', '0', '0'] ['1', '9', '9']
    (by decide) (by decide) (by decide) (by decide) (by decide) (by decide)).1

/-- Claim C5 (code bug): a `Range` start beyond the file length is NOT
rejected with 416 — for `bytes=2000-` on a 1000-byte file the stream
route emits status 206 with the invalid `Content-Range: bytes 2000-999/1000`
and a negative `Content-Length` of -1000, exactly the kind of response
the claim requires to never be produced. -/
theorem range_start_beyond_eof_not_rejected :
    streamRangeBranch 1000 "bytes=2000-".data =
      some { status := 206, crStart := 2000, crEnd := 999, crTotal := 1000,
             contentLength := -1000 } := by
  decide

/-- Counterexample to claim C1 as stated: starting from the initial
state, two stream requests for the same content (magnet "m", file 0), the
second issued while the first engine is still alive (nothing destroyed),
open two separate engines — `opened` records two `torrentStream` calls
for "m" and distinct engine ids, refuting single-flight. -/
theorem two_stream_requests_open_two_engines :
    countOpens "m" (streamRequestStart "m" 0 (streamRequestStart "m" 0 initState).2).2 = 2
    ∧ (streamRequestStart "m" 0 initState).1 ≠
        (streamRequestStart "m" 0 (streamRequestStart "m" 0 initState).2).1
    ∧ (streamRequestStart "m" 0 (streamRequestStart "m" 0 initState).2).2.destroyed = [] := by
  decide

/-- Claim C1 (amended): no single-flight registry lookup exists — every
stream request unconditionally opens a fresh engine, so two requests for
the same content issued back to back cause two separate `torrentStream`
opens with distinct engine handles, and neither open destroys the other's
engine. -/
theorem every_stream_request_opens_fresh_engine (m : String) (i j : Nat) (s : ProxyState) :
    countOpens m (streamRequestStart m j (streamRequestStart m i s).2).2 =
      countOpens m s + 2
    ∧ (streamRequestStart m i s).1 ≠ (streamRequestStart m j (streamRequestStart m i s).2).1
    ∧ (streamRequestStart m j (streamRequestStart m i s).2).2.destroyed = s.destroyed := by
  refine ⟨?_, ?_, rfl⟩
  · simp [countOpens, streamRequestStart, List.filter_append]
  · simp [streamRequestStart]

/-- Counterexample to claim C2 as stated: the only sweep the proxy runs
evicts an entry whose last access is one hour old — far inside the 24-hour
window the claim grants to unfinished content (and the proxy stores no
watch fraction at all that could trigger the claimed completion rule). -/
theorem sweep_evicts_one_hour_old_entry :
    (cleanupSweep 3600000
        { nextId := 1, opened := [(0, "m")], destroyed := [],
          activeEngines := [("m-0", ⟨0, 0⟩)] }).activeEngines = []
    ∧ (cleanupSweep 3600000
        { nextId := 1, opened := [(0, "m")], destroyed := [],
          activeEngines := [("m-0", ⟨0, 0⟩)] }).destroyed = [0]
    ∧ ((3600000 : Int) - 0 ≤ 24 * 60 * 60 * 1000) := by
  refine ⟨by decide, by decide, by decide⟩

/-- Claim C2 (amended): the periodic cleanup sweep keeps an entry exactly
when `now - lastAccess` is at most ten minutes and, for every entry past
that bound, destroys its engine and removes it; no watch fraction exists
or is consulted. -/
theorem sweep_evicts_exactly_idle_beyond_ten_minutes (now : Int) (s : ProxyState)
    (k : String) (e : EngineEntry) :
    ((k, e) ∈ (cleanupSweep now s).activeEngines ↔
      (k, e) ∈ s.activeEngines ∧ now - e.lastAccess ≤ maxAgeMs)
    ∧ ((k, e) ∈ s.activeEngines → maxAgeMs < now - e.lastAccess →
        e.engineId ∈ (cleanupSweep now s).destroyed) := by
  constructor
  · simp [cleanupSweep, List.mem_filter, not_lt]
  · intro hm hlt
    unfold cleanupSweep
    refine List.mem_append.mpr (Or.inr ?_)
    exact List.mem_map.mpr ⟨(k, e), List.mem_filter.mpr ⟨hm, by simpa using hlt⟩, rfl⟩

/-- Witness for the amended C2 at a concrete state: an entry one hour idle
is destroyed by the sweep, an entry 100 seconds idle is kept. -/
theorem sweep_evicts_exactly_idle_beyond_ten_minutes_witness :
    (0 : Nat) ∈ (cleanupSweep 3600000
        { nextId := 2, opened := [], destroyed := [],
          activeEngines := [("m-0", ⟨0, 0⟩), ("x-1", ⟨1, 3500000⟩)] }).destroyed
    ∧ ("x-1", (⟨1, 3500000⟩ : EngineEntry)) ∈ (cleanupSweep 3600000
        { nextId := 2, opened := [], destroyed := [],
          activeEngines := [("m-0", ⟨0, 0⟩), ("x-1", ⟨1, 3500000⟩)] }).activeEngines :=
  ⟨(sweep_evicts_exactly_idle_beyond_ten_minutes 3600000
      { nextId := 2, opened := [], destroyed := [],
        activeEngines := [("m-0", ⟨0, 0⟩), ("x-1", ⟨1, 3500000⟩)] } "m-0" ⟨0, 0⟩).2
    (by decide) (by decide),
   (sweep_evicts_exactly_idle_beyond_ten_minutes 3600000
      { nextId := 2, opened := [], destroyed := [],
        activeEngines := [("m-0", ⟨0, 0⟩), ("x-1", ⟨1, 3500000⟩)] } "x-1" ⟨1, 3500000⟩).1.mpr
    ⟨by decide, by decide⟩⟩

/-- Counterexample to claim C3 as stated: a stream request for magnet "m"
file 0 becomes ready and is registered, then the client disconnects — the
`close` handler deletes the registry entry AND destroys the engine, so the
engine is neither present in the registry nor alive afterwards. -/
theorem disconnect_removes_and_destroys_counterexample :
    mapFind (clientDisconnect "m" 0 0
        (streamEngineReady "m" 0 0 true 1000
          (streamRequestStart "m" 0 initState).2)).activeEngines
      (streamId "m" 0) = none
    ∧ (clientDisconnect "m" 0 0
        (streamEngineReady "m" 0 0 true 1000
          (streamRequestStart "m" 0 initState).2)).destroyed = [0] := by
  decide

/-- Claim C3 (amended): on client disconnect mid-stream the proxy deletes
the stream's registry binding and destroys its engine: afterwards the
stream id resolves to nothing and the engine id is on the destroyed list. -/
theorem disconnect_removes_entry_and_destroys_engine (m : String) (i eid : Nat)
    (s : ProxyState) :
    mapFind (clientDisconnect m i eid s).activeEngines (streamId m i) = none
    ∧ (clientDisconnect m i eid s).destroyed = s.destroyed ++ [eid] :=
  ⟨mapFind_mapDelete s.activeEngines (streamId m i), rfl⟩

/-- Counterexample to claim C6 as stated: a successful info request for
magnet "m" destroys the very engine it opened (the `setTimeout` its own
ready handler schedules), with no janitor sweep and no shutdown involved,
and without the engine ever being entered into the registry. -/
theorem info_request_destroys_own_engine :
    (infoDelayedDestroy (infoRequestStart "m" initState).1
        (infoRequestStart "m" initState).2).destroyed = [0]
    ∧ (infoDelayedDestroy (infoRequestStart "m" initState).1
        (infoRequestStart "m" initState).2).activeEngines = [] := by
  decide

/-- Claim C6 (amended): the engine opened by an info request is never
registered in `activeEngines` and is destroyed ten seconds after the
response by the timeout the info handler itself schedules; only stream
engines enter the registry, living until client disconnect or the idle
sweep. -/
theorem info_engine_destroyed_by_own_handler (m : String) (s : ProxyState) :
    (infoDelayedDestroy (infoRequestStart m s).1
        (infoRequestStart m s).2).destroyed = s.destroyed ++ [s.nextId]
    ∧ (infoRequestStart m s).1 = s.nextId
    ∧ (infoDelayedDestroy (infoRequestStart m s).1
        (infoRequestStart m s).2).activeEngines = s.activeEngines
    ∧ (infoRequestStart m s).2.opened = s.opened ++ [(s.nextId, m)] :=
  ⟨rfl, rfl, rfl, rfl⟩

/-- Counterexample to claim C7 as stated: a stream request opens engine 0
for magnet "m" and the open fails; the error handler surfaces 500 and no
registry entry exists, but the failed engine is never destroyed — its
resources are NOT released, refuting the cleanup half of the claim. -/
theorem open_failure_leaks_engine :
    (engineOpenError (streamRequestStart "m" 0 initState).2).2 = 500
    ∧ (engineOpenError (streamRequestStart "m" 0 initState).2).1.opened = [(0, "m")]
    ∧ (engineOpenError (streamRequestStart "m" 0 initState).2).1.destroyed = []
    ∧ (engineOpenError (streamRequestStart "m" 0 initState).2).1.activeEngines = [] := by
  decide

/-- Claim C7 (amended): when an engine open fails, both the stream and the
info route surface a 500 error and leave the registry without any entry
for the content, but neither error handler destroys the failed engine —
the opened engine stays un-destroyed (a resource leak, not a cleanup). -/
theorem open_failure_surfaces_500_without_cleanup (m : String) (i : Nat) (s : ProxyState) :
    (engineOpenError (streamRequestStart m i s).2).2 = 500
    ∧ (engineOpenError (streamRequestStart m i s).2).1.activeEngines = s.activeEngines
    ∧ (engineOpenError (streamRequestStart m i s).2).1.destroyed = s.destroyed
    ∧ (engineOpenError (streamRequestStart m i s).2).1.opened = s.opened ++ [(s.nextId, m)]
    ∧ (engineOpenError (infoRequestStart m s).2).2 = 500
    ∧ (engineOpenError (infoRequestStart m s).2).1.destroyed = s.destroyed :=
  ⟨rfl, rfl, rfl, rfl, rfl, rfl⟩

/-- Counterexample to claim C8 as stated: the progress report the shipped
player sends, `POST /api/torrent/progress`, matches no route of the proxy
— with the streaming dependency installed it falls through to the express
default 404, never the claimed 400, whatever the fraction is. -/
theorem progress_report_hits_no_route :
    handlerStatus (route true "POST" ["api", "torrent", "progress"]) = some 404 := by
  decide

/-- Claim C8 (amended): no progress route exists at all — every
`POST /api/torrent/progress` request is answered 404 (or 503 when the
streaming dependency is missing) regardless of payload, is never answered
400, and never reaches the info or stream handlers, the only handlers
that touch registry state. -/
theorem progress_report_unrouted (avail : Bool) :
    route avail "POST" ["api", "torrent", "progress"] =
      (if avail then Handler.notFound404 else Handler.unavailable503)
    ∧ handlerStatus (route avail "POST" ["api", "torrent", "progress"]) ≠ some 400
    ∧ route avail "POST" ["api", "torrent", "progress"] ≠ Handler.infoRoute
    ∧ route avail "POST" ["api", "torrent", "progress"] ≠ Handler.streamRoute := by
  cases avail <;> exact ⟨rfl, by decide, by decide, by decide⟩

/-- Counterexample to claim C9 as stated: with the torrent-stream
dependency unavailable, `GET /api/torrent/health` — a route under this
core, registered before the 503 catch-all — still answers 200. -/
theorem health_succeeds_when_engine_unavailable :
    route false "GET" ["api", "torrent", "health"] = Handler.health
    ∧ handlerStatus (route false "GET" ["api", "torrent", "health"]) = some 200 := by
  decide

/-- Claim C9 (amended): with the dependency unavailable every request
under `/api/torrent/` other than the health check (and CORS preflights)
is answered 503 by the catch-all, while `GET /api/torrent/health` still
answers 200. -/
theorem unavailable_engine_guard (method seg : String) (rest : List String)
    (hopt : method ≠ "OPTIONS")
    (hhealth : ¬(method = "GET" ∧ seg :: rest = ["health"])) :
    route false method ("api" :: "torrent" :: seg :: rest) = Handler.unavailable503
    ∧ handlerStatus (route false "GET" ["api", "torrent", "health"]) = some 200 := by
  refine ⟨?_, by decide⟩
  unfold route
  rw [if_neg hopt, if_neg (by simp), if_neg ?_]
  · rfl
  · rintro ⟨hg, hseg⟩
    rw [List.cons.injEq, List.cons.injEq] at hseg
    exact hhealth ⟨hg, hseg.2.2⟩

/-- Witness for the amended C9: the progress endpoint, unavailable state —
the catch-all answers 503. -/
theorem unavailable_engine_guard_witness :
    route false "POST" ("api" :: "torrent" :: "progress" :: []) = Handler.unavailable503
    ∧ handlerStatus (route false "GET" ["api", "torrent", "health"]) = some 200 :=
  unavailable_engine_guard "POST" "progress" [] (by decide) (by decide)

end MovieMag
